import Mathlib

/-!
# Water Tracker — verified model of `src/App.js`

A shallow embedding of the intake state machine of the water-tracker app:
constants, the persisted key/value record, the load-on-start sequence
(`loadData`), the saturating add/remove operations (`addGlass` /
`removeGlass`), the goal-completion effect (the `useEffect` latch), and the
guarded save effect.  JavaScript strings are modelled as lists of UTF-16
code units (`List Nat`); `parseInt(s, 10)` and `Number.prototype.toString`
are modelled character by character; JavaScript `NaN` results of `parseInt`
are modelled as `none`.
-/

namespace WaterTracker

/-- `const GLASS_SIZE = 250` (src/App.js line 6). -/
def GLASS_SIZE : Int := 250

/-- `const DAILY_GOAL = 2000` (src/App.js line 7). -/
def DAILY_GOAL : Int := 2000

/-- `const MAX_INTAKE = DAILY_GOAL + 1000` (src/App.js line 8). -/
def MAX_INTAKE : Int := DAILY_GOAL + 1000

/-- A JavaScript string, as its list of UTF-16 code units. -/
abbrev Str := List Nat

/-- The code units of the string literal `'0'` written by the rollover batch. -/
def strZero : Str := [48]

/-- Whitespace code units stripped by `parseInt` (space and the ASCII
control whitespace range). -/
def isWsCode (c : Nat) : Bool := decide (c = 32 ∨ (9 ≤ c ∧ c ≤ 13))

/-- Decimal digit code units `'0'..'9'`. -/
def isDigitCode (c : Nat) : Bool := decide (48 ≤ c ∧ c ≤ 57)

/-- Value of the longest digit prefix of `l`, accumulated onto `acc`
(most-significant digit first); stops at the first non-digit, as
`parseInt` does. -/
def digitPrefixVal : List Nat → Nat → Nat
  | [], acc => acc
  | c :: rest, acc =>
    if isDigitCode c then digitPrefixVal rest (acc * 10 + (c - 48)) else acc

/-- `parseInt` after sign handling: `none` (JS `NaN`) when the string does
not start with a digit, otherwise the value of the longest digit prefix. -/
def parseUnsigned : List Nat → Option Nat
  | [] => none
  | c :: rest =>
    if isDigitCode c then some (digitPrefixVal rest (c - 48)) else none

/-- `parseInt(s, 10)` (src/App.js line 59): strip leading whitespace, read
an optional sign, then the longest decimal-digit prefix; `none` models the
`NaN` result. -/
def jsParseInt10 (s : Str) : Option Int :=
  match s.dropWhile isWsCode with
  | [] => none
  | c :: rest =>
    if c = 45 then (parseUnsigned rest).map (fun n => -(n : Int))
    else if c = 43 then (parseUnsigned rest).map Int.ofNat
    else (parseUnsigned (c :: rest)).map Int.ofNat

/-- Decimal digit code units of `n`, least-significant first; `fuel`
bounds the recursion and any `fuel ≥ n` is enough. -/
def natToDigitsRev : Nat → Nat → List Nat
  | 0, _ => []
  | fuel + 1, n =>
    if n = 0 then [] else (48 + n % 10) :: natToDigitsRev fuel (n / 10)

/-- Decimal rendering of a natural number, as `Number.prototype.toString`
renders a non-negative integer. -/
def natToString (n : Nat) : Str :=
  if n = 0 then [48] else (natToDigitsRev n n).reverse

/-- `intake.toString()` (src/App.js line 83) for an integer value. -/
def intToString (v : Int) : Str :=
  if v < 0 then 45 :: natToString v.natAbs else natToString v.natAbs

/-- The in-memory component state: `useState(0)` for `intake` and
`useState(false)` for `goalReached` (src/App.js lines 16, 18). -/
structure AppState where
  intake : Int
  goalReached : Bool
deriving Repr, DecidableEq

/-- The state at mount, before `loadData` runs. -/
def initialState : AppState := { intake := 0, goalReached := false }

/-- The state installed by the new-day reset branch of `loadData`
(src/App.js lines 54–55): `setIntake(0); setGoalReached(false)`. -/
def resetState : AppState := { intake := 0, goalReached := false }

/-- The two AsyncStorage keys (src/App.js lines 10–13): `lastReset` holds
`water_tracker_last_reset`, `intakeMl` holds `water_tracker_intake`;
`none` models an absent key. -/
structure Store where
  lastReset : Option Str
  intakeMl : Option Str
deriving Repr, DecidableEq

/-- `loadData` (src/App.js lines 43–72): given the store contents and
today's `toDateString()` value, returns the loaded in-memory state and the
`multiSet` batch written on rollover (`none` when no write happens; on
rollover the single batch holds today's date for `lastResetDate` and `'0'`
for `intakeMl`). -/
def loadData (store : Store) (today : Str) : AppState × Option (Str × Str) :=
  if store.lastReset ≠ some today then
    ({ intake := 0, goalReached := false }, some (today, strZero))
  else
    match store.intakeMl with
    | none => (initialState, none)
    | some s =>
      match jsParseInt10 s with
      | none => (initialState, none)
      | some v => ({ intake := v, goalReached := decide (DAILY_GOAL ≤ v) }, none)

/-- Apply the rollover `multiSet` batch to the store: both keys are
written in one batch, or nothing is written. -/
def applyRolloverBatch (store : Store) : Option (Str × Str) → Store
  | none => store
  | some (d, v) => { lastReset := some d, intakeMl := some v }

/-- The two user commands, `addGlass` and `removeGlass`. -/
inductive Ev
  | add
  | remove
deriving Repr, DecidableEq

/-- The state updates of `addGlass` / `removeGlass` (src/App.js lines
102–110): `Math.min(prev + GLASS_SIZE, MAX_INTAKE)` and
`Math.max(prev - GLASS_SIZE, 0)`; `goalReached` is untouched. -/
def applyEv : Ev → AppState → AppState
  | .add, s => { s with intake := min (s.intake + GLASS_SIZE) MAX_INTAKE }
  | .remove, s => { s with intake := max (s.intake - GLASS_SIZE) 0 }

/-- The goal-completion `useEffect` (src/App.js lines 93–100): when
initialized, `intake >= DAILY_GOAL && !goalReached` latches the flag and
fires `celebrate()`; the Bool result records whether the celebration
signal was emitted. -/
def goalEffect (isInit : Bool) (s : AppState) : AppState × Bool :=
  if isInit && (decide (DAILY_GOAL ≤ s.intake) && !s.goalReached) then
    ({ s with goalReached := true }, true)
  else
    (s, false)

/-- One steady-state command: apply the mutation, then the
goal-completion effect (initialization complete). -/
def step (s : AppState) (e : Ev) : AppState × Bool :=
  goalEffect true (applyEv e s)

/-- Run a sequence of commands; the Bool is true when any step emitted
the celebration signal. -/
def runEvents : AppState → List Ev → AppState × Bool
  | s, [] => (s, false)
  | s, e :: rest =>
    let p := step s e
    let q := runEvents p.1 rest
    (q.1, p.2 || q.2)

/-- The save `useEffect` (src/App.js lines 78–90): writes
`intake.toString()` to the `intakeMl` key, but only once
`isInitialized.current` is true — otherwise it returns without touching
the store. -/
def saveEffect (isInit : Bool) (intake : Int) (store : Store) : Store :=
  if isInit then { store with intakeMl := some (intToString intake) } else store

/-- The action surface while loading (src/App.js lines 120–127): the
loading screen replaces the buttons, so a command arriving while
`isLoading` is true leaves the state unchanged. -/
def dispatch (isLoading : Bool) (e : Ev) (s : AppState) : AppState :=
  if isLoading then s else applyEv e s

/-- A run of commands entirely before initialization completes: each
mutation is followed by the save effect with `isInit = false`. -/
def preInitRun (s : AppState) (store : Store) (evs : List Ev) : AppState × Store :=
  evs.foldl
    (fun p e =>
      let s1 := applyEv e p.1
      (s1, saveEffect false s1.intake p.2))
    (s, store)

/-! ## Basic lemmas about the model -/

theorem applyEv_goalReached (e : Ev) (s : AppState) :
    (applyEv e s).goalReached = s.goalReached := by
  cases e <;> rfl

theorem digitPrefixVal_append (a b : List Nat) (acc : Nat)
    (h : ∀ c ∈ a, isDigitCode c = true) :
    digitPrefixVal (a ++ b) acc = digitPrefixVal b (digitPrefixVal a acc) := by
  induction a generalizing acc with
  | nil => simp [digitPrefixVal]
  | cons c rest ih =>
    have hc : isDigitCode c = true := h c (by simp)
    simp only [List.cons_append, digitPrefixVal, hc, if_true]
    exact ih _ (fun d hd => h d (by simp [hd]))

theorem natToDigitsRev_digits :
    ∀ fuel n c, c ∈ natToDigitsRev fuel n → isDigitCode c = true := by
  intro fuel
  induction fuel with
  | zero => intro n c hc; simp [natToDigitsRev] at hc
  | succ fuel ih =>
    intro n c hc
    by_cases hn : n = 0
    · simp [natToDigitsRev, hn] at hc
    · simp only [natToDigitsRev, hn, if_false, List.mem_cons] at hc
      rcases hc with h | h
      · subst h
        simp only [isDigitCode, decide_eq_true_eq]
        omega
      · exact ih _ _ h

theorem digitPrefixVal_natToDigitsRev :
    ∀ fuel n acc, n ≤ fuel →
      digitPrefixVal ((natToDigitsRev fuel n).reverse) acc
        = acc * 10 ^ (natToDigitsRev fuel n).length + n := by
  intro fuel
  induction fuel with
  | zero =>
    intro n acc h
    have hn : n = 0 := by omega
    subst hn
    simp [natToDigitsRev, digitPrefixVal]
  | succ fuel ih =>
    intro n acc h
    by_cases hn : n = 0
    · subst hn; simp [natToDigitsRev, digitPrefixVal]
    · have hdiv : n / 10 ≤ fuel := by
        have h2 : n / 10 < n := Nat.div_lt_self (Nat.pos_of_ne_zero hn) (by norm_num)
        omega
      have hall : ∀ c ∈ (natToDigitsRev fuel (n / 10)).reverse, isDigitCode c = true := by
        intro c hc
        exact natToDigitsRev_digits fuel (n / 10) c (List.mem_reverse.mp hc)
      have hdig : isDigitCode (48 + n % 10) = true := by
        simp only [isDigitCode, decide_eq_true_eq]
        omega
      simp only [natToDigitsRev, hn, if_false, List.reverse_cons, List.length_cons]
      rw [digitPrefixVal_append _ _ _ hall, ih _ _ hdiv]
      simp only [digitPrefixVal, hdig, if_true]
      rw [pow_succ, ← mul_assoc]
      generalize acc * 10 ^ (natToDigitsRev fuel (n / 10)).length = q
      omega

theorem natToString_ne_nil (n : Nat) : natToString n ≠ [] := by
  by_cases hn : n = 0
  · subst hn; simp [natToString]
  · rw [natToString, if_neg hn]
    obtain ⟨m, rfl⟩ := Nat.exists_eq_succ_of_ne_zero hn
    simp [natToDigitsRev]

theorem natToString_digits (n : Nat) : ∀ c ∈ natToString n, isDigitCode c = true := by
  intro c hc
  by_cases hn : n = 0
  · subst hn
    simp [natToString] at hc
    subst hc
    decide
  · rw [natToString, if_neg hn] at hc
    exact natToDigitsRev_digits n n c (List.mem_reverse.mp hc)

theorem parseUnsigned_digitPrefix (l : List Nat)
    (hne : l ≠ []) (hd : ∀ c ∈ l, isDigitCode c = true) :
    parseUnsigned l = some (digitPrefixVal l 0) := by
  match l with
  | [] => exact absurd rfl hne
  | c :: rest =>
    have hc : isDigitCode c = true := hd c (by simp)
    simp [parseUnsigned, digitPrefixVal, hc]

theorem parseUnsigned_natToString (n : Nat) :
    parseUnsigned (natToString n) = some n := by
  rw [parseUnsigned_digitPrefix _ (natToString_ne_nil n) (natToString_digits n)]
  by_cases hn : n = 0
  · subst hn; rfl
  · rw [natToString, if_neg hn, digitPrefixVal_natToDigitsRev n n 0 le_rfl]
    simp

theorem jsParseInt10_of_digits (l : List Nat)
    (hne : l ≠ []) (hd : ∀ c ∈ l, isDigitCode c = true) :
    jsParseInt10 l = (parseUnsigned l).map Int.ofNat := by
  match l with
  | [] => exact absurd rfl hne
  | c :: rest =>
    have hc : isDigitCode c = true := hd c (by simp)
    have hrange : 48 ≤ c ∧ c ≤ 57 := by
      simpa only [isDigitCode, decide_eq_true_eq] using hc
    have hws : isWsCode c = false := by
      simp only [isWsCode, decide_eq_false_iff_not]
      omega
    have h45 : ¬ c = 45 := by omega
    have h43 : ¬ c = 43 := by omega
    simp only [jsParseInt10, List.dropWhile_cons, hws, Bool.false_eq_true, if_false,
      h45, h43, if_false]

theorem jsParseInt10_natToString (n : Nat) :
    jsParseInt10 (natToString n) = some (n : Int) := by
  rw [jsParseInt10_of_digits _ (natToString_ne_nil n) (natToString_digits n),
    parseUnsigned_natToString]
  rfl

theorem jsParseInt10_intToString (v : Int) (h : 0 ≤ v) :
    jsParseInt10 (intToString v) = some v := by
  rw [intToString, if_neg (by omega), jsParseInt10_natToString]
  congr 1
  exact Int.natAbs_of_nonneg h

theorem goalEffect_latched (s : AppState) (h : s.goalReached = true) :
    goalEffect true s = (s, false) := by
  simp [goalEffect, h]

theorem step_latched (s : AppState) (e : Ev) (h : s.goalReached = true) :
    (step s e).1.goalReached = true ∧ (step s e).2 = false := by
  have ha : (applyEv e s).goalReached = true := by rw [applyEv_goalReached]; exact h
  unfold step
  rw [goalEffect_latched _ ha]
  exact ⟨ha, rfl⟩

theorem runEvents_latched (s : AppState) (evs : List Ev) (h : s.goalReached = true) :
    (runEvents s evs).1.goalReached = true ∧ (runEvents s evs).2 = false := by
  induction evs generalizing s with
  | nil => simpa [runEvents]
  | cons e rest ih =>
    have hs := step_latched s e h
    have hr := ih (step s e).1 hs.1
    simp [runEvents, hs.2, hr.1, hr.2]

theorem step_emits_iff (s : AppState) (e : Ev)
    (hset : DAILY_GOAL ≤ s.intake → s.goalReached = true) :
    (step s e).2 = true ↔
      s.intake < DAILY_GOAL ∧ DAILY_GOAL ≤ (applyEv e s).intake ∧ s.goalReached = false := by
  unfold step goalEffect
  rw [applyEv_goalReached]
  by_cases hg : s.goalReached = true
  · simp [hg]
  · have hg' : s.goalReached = false := by simpa using hg
    have hlt : s.intake < DAILY_GOAL := by
      by_contra hle
      rw [hset (by omega)] at hg'
      cases hg'
    by_cases hnew : DAILY_GOAL ≤ (applyEv e s).intake
    · simp [hg', hnew, hlt]
    · simp [hg', hnew]

theorem goalEffect_intake (b : Bool) (s : AppState) :
    (goalEffect b s).1.intake = s.intake := by
  unfold goalEffect
  split_ifs <;> rfl

theorem goalEffect_settled (s : AppState) :
    DAILY_GOAL ≤ (goalEffect true s).1.intake → (goalEffect true s).1.goalReached = true := by
  intro h
  rw [goalEffect_intake] at h
  unfold goalEffect
  split_ifs with hc
  · rfl
  · simp only [Bool.true_and, Bool.and_eq_true, decide_eq_true_eq,
      Bool.not_eq_true'] at hc
    have h2 : ¬ s.goalReached = false := fun hf => hc ⟨h, hf⟩
    simpa using h2

theorem step_settled (s : AppState) (e : Ev) :
    DAILY_GOAL ≤ (step s e).1.intake → (step s e).1.goalReached = true := by
  intro hle
  exact goalEffect_settled (applyEv e s) hle

theorem applyEv_bounds (e : Ev) (s : AppState)
    (h0 : 0 ≤ s.intake) (h1 : s.intake ≤ MAX_INTAKE) :
    0 ≤ (applyEv e s).intake ∧ (applyEv e s).intake ≤ MAX_INTAKE := by
  have hM : MAX_INTAKE = 3000 := by decide
  cases e <;>
    simp only [applyEv, min_def, max_def, GLASS_SIZE, hM] <;>
    split_ifs <;>
    constructor <;>
    omega

theorem loadData_new_day (store : Store) (today : Str)
    (h : store.lastReset ≠ some today) :
    loadData store today
      = ({ intake := 0, goalReached := false }, some (today, strZero)) := by
  simp [loadData, h]

theorem loadData_same_day_absent (store : Store) (today : Str)
    (hday : store.lastReset = some today) (hs : store.intakeMl = none) :
    loadData store today = (initialState, none) := by
  simp [loadData, hday, hs]

theorem loadData_same_day_nan (store : Store) (today : Str) (s : Str)
    (hday : store.lastReset = some today) (hs : store.intakeMl = some s)
    (hv : jsParseInt10 s = none) :
    loadData store today = (initialState, none) := by
  simp [loadData, hday, hs, hv]

theorem loadData_same_day_parsed (store : Store) (today : Str) (s : Str) (v : Int)
    (hday : store.lastReset = some today) (hs : store.intakeMl = some s)
    (hv : jsParseInt10 s = some v) :
    loadData store today
      = ({ intake := v, goalReached := decide (DAILY_GOAL ≤ v) }, none) := by
  simp [loadData, hday, hs, hv]

theorem preInitRun_store (s : AppState) (store : Store) (evs : List Ev) :
    (preInitRun s store evs).2 = store := by
  induction evs generalizing s with
  | nil => rfl
  | cons e rest ih =>
    simp only [preInitRun, List.foldl_cons] at ih ⊢
    exact ih _

/-! ## Claim theorems -/

/-- C1: Day-rollover on load: for every startup where the stored
`lastResetDate` differs from today's day identifier (including when it is
absent), the loaded in-memory state has `totalMl = 0` and
`goalReached = false` regardless of the stored `intakeMl`, and the single
`multiSet` batch rewrites both keys with today's date and the string
`"0"`. -/
theorem c1_day_rollover_on_load (store : Store) (today : Str)
    (h : store.lastReset ≠ some today) :
    (loadData store today).1.intake = 0 ∧
    (loadData store today).1.goalReached = false ∧
    (loadData store today).2 = some (today, strZero) ∧
    applyRolloverBatch store (loadData store today).2
      = { lastReset := some today, intakeMl := some strZero } := by
  rw [loadData_new_day store today h]
  exact ⟨rfl, rfl, rfl, rfl⟩

/-- Witness for C1: yesterday's date stored as `[89]`, today `[88]`,
stored intake `"1500"`. -/
theorem c1_day_rollover_on_load_witness :
    (Store.mk (some [89]) (some [49, 53, 48, 48])).lastReset ≠ some [88] ∧
    ((loadData ⟨some [89], some [49, 53, 48, 48]⟩ [88]).1.intake = 0 ∧
     (loadData ⟨some [89], some [49, 53, 48, 48]⟩ [88]).1.goalReached = false ∧
     (loadData ⟨some [89], some [49, 53, 48, 48]⟩ [88]).2 = some ([88], strZero) ∧
     applyRolloverBatch ⟨some [89], some [49, 53, 48, 48]⟩
         (loadData ⟨some [89], some [49, 53, 48, 48]⟩ [88]).2
       = { lastReset := some [88], intakeMl := some strZero }) :=
  ⟨by decide,
   c1_day_rollover_on_load ⟨some [89], some [49, 53, 48, 48]⟩ [88] (by decide)⟩

/-- C2: Edge-triggered celebration latch: for a settled state (one on
which the goal-completion effect has already run, so
`intake ≥ DAILY_GOAL → goalReached`), a command emits the celebration
signal iff the previous intake was below `DAILY_GOAL`, the new intake
reaches it, and the latch is clear; once `goalReached` is latched true,
no sequence of add/remove commands within the day emits again and the
latch stays true; the rollover reset clears the latch. -/
theorem c2_edge_triggered_latch (s : AppState) (e : Ev) (evs : List Ev)
    (hset : DAILY_GOAL ≤ s.intake → s.goalReached = true) :
    ((step s e).2 = true ↔
      s.intake < DAILY_GOAL ∧ DAILY_GOAL ≤ (applyEv e s).intake ∧
        s.goalReached = false) ∧
    (s.goalReached = true →
      (runEvents s evs).2 = false ∧ (runEvents s evs).1.goalReached = true) ∧
    resetState.goalReached = false :=
  ⟨step_emits_iff s e hset,
   fun h => ⟨(runEvents_latched s evs h).2, (runEvents_latched s evs h).1⟩,
   rfl⟩

/-- Witness for C2: latched state at the goal; a remove followed by an
add dips below the goal and returns, with no re-emission. -/
theorem c2_edge_triggered_latch_witness :
    (DAILY_GOAL ≤ (AppState.mk 2000 true).intake →
        (AppState.mk 2000 true).goalReached = true) ∧
    (((step ⟨2000, true⟩ Ev.add).2 = true ↔
        (AppState.mk 2000 true).intake < DAILY_GOAL ∧
          DAILY_GOAL ≤ (applyEv Ev.add ⟨2000, true⟩).intake ∧
          (AppState.mk 2000 true).goalReached = false) ∧
     ((AppState.mk 2000 true).goalReached = true →
        (runEvents ⟨2000, true⟩ [Ev.remove, Ev.add]).2 = false ∧
        (runEvents ⟨2000, true⟩ [Ev.remove, Ev.add]).1.goalReached = true) ∧
     resetState.goalReached = false) :=
  ⟨by decide,
   c2_edge_triggered_latch ⟨2000, true⟩ Ev.add [Ev.remove, Ev.add] (by decide)⟩

/-- C3 counterexample: on a same-day startup with stored
`intakeMl = "5000"` (code units `[53, 48, 48, 48]`), the load restores
`totalMl = 5000`, which violates `totalMl ≤ MAX_INTAKE = 3000`: the load
path does not clamp the parsed value. -/
theorem c3_counterexample :
    (loadData ⟨some [88], some [53, 48, 48, 48]⟩ [88]).1.intake = 5000 ∧
    ¬ (loadData ⟨some [88], some [53, 48, 48, 48]⟩ [88]).1.intake ≤ MAX_INTAKE := by
  decide

/-- C3 (amended): `0 ≤ totalMl ≤ MAX_INTAKE` holds after `addGlass` /
`removeGlass` from any in-bounds state, after the rollover `reset`, and
after a startup load whenever the day rolled over, the stored `intakeMl`
is absent or non-numeric, or it parses to a value already in
`[0, MAX_INTAKE]` (as every value the app itself persists does). -/
theorem c3_bounds_amended (e : Ev) (s : AppState) (store : Store) (today : Str)
    (hs0 : 0 ≤ s.intake) (hs1 : s.intake ≤ MAX_INTAKE)
    (hstore : store.lastReset ≠ some today ∨ store.intakeMl = none ∨
      (∃ str, store.intakeMl = some str ∧
        (jsParseInt10 str = none ∨
          ∃ v, jsParseInt10 str = some v ∧ 0 ≤ v ∧ v ≤ MAX_INTAKE))) :
    (0 ≤ (applyEv e s).intake ∧ (applyEv e s).intake ≤ MAX_INTAKE) ∧
    (0 ≤ resetState.intake ∧ resetState.intake ≤ MAX_INTAKE) ∧
    (0 ≤ (loadData store today).1.intake ∧
      (loadData store today).1.intake ≤ MAX_INTAKE) := by
  refine ⟨applyEv_bounds e s hs0 hs1, by decide, ?_⟩
  by_cases hday : store.lastReset = some today
  · rcases hstore with h | h | ⟨str, hstr, h⟩
    · exact absurd hday h
    · rw [loadData_same_day_absent store today hday h]
      decide
    · rcases h with h | ⟨v, hv, hv0, hv1⟩
      · rw [loadData_same_day_nan store today str hday hstr h]
        decide
      · rw [loadData_same_day_parsed store today str v hday hstr hv]
        exact ⟨hv0, hv1⟩
  · rw [loadData_new_day store today hday]
    show (0 : Int) ≤ 0 ∧ (0 : Int) ≤ MAX_INTAKE
    exact ⟨le_rfl, by decide⟩

/-- Witness for C3 (amended): state `⟨0, false⟩`, add command, same-day
store holding `"0"`. -/
theorem c3_bounds_amended_witness :
    (0 ≤ (AppState.mk 0 false).intake) ∧
    ((AppState.mk 0 false).intake ≤ MAX_INTAKE) ∧
    ((Store.mk (some [88]) (some [48])).lastReset ≠ some [88] ∨
      (Store.mk (some [88]) (some [48])).intakeMl = none ∨
      (∃ str, (Store.mk (some [88]) (some [48])).intakeMl = some str ∧
        (jsParseInt10 str = none ∨
          ∃ v, jsParseInt10 str = some v ∧ 0 ≤ v ∧ v ≤ MAX_INTAKE))) ∧
    ((0 ≤ (applyEv Ev.add ⟨0, false⟩).intake ∧
        (applyEv Ev.add ⟨0, false⟩).intake ≤ MAX_INTAKE) ∧
     (0 ≤ resetState.intake ∧ resetState.intake ≤ MAX_INTAKE) ∧
     (0 ≤ (loadData ⟨some [88], some [48]⟩ [88]).1.intake ∧
       (loadData ⟨some [88], some [48]⟩ [88]).1.intake ≤ MAX_INTAKE)) :=
  ⟨by decide, by decide,
   Or.inr (Or.inr ⟨[48], rfl, Or.inr ⟨0, by decide, by decide, by decide⟩⟩),
   c3_bounds_amended Ev.add ⟨0, false⟩ ⟨some [88], some [48]⟩ [88]
     (by decide) (by decide)
     (Or.inr (Or.inr ⟨[48], rfl, Or.inr ⟨0, by decide, by decide, by decide⟩⟩))⟩

/-- C4: Restart after goal reached does not re-celebrate: on a same-day
startup whose stored `intakeMl` parses to a value at least `DAILY_GOAL`,
the load sets `goalReached = true` (the one-time recomputation
`totalMl ≥ DAILY_GOAL`), the goal-completion effect does not emit on the
loaded state, and no same-day sequence of add/remove commands emits the
celebration signal. -/
theorem c4_restart_no_recelebrate (store : Store) (today s : Str) (v : Int)
    (hday : store.lastReset = some today) (hs : store.intakeMl = some s)
    (hv : jsParseInt10 s = some v) (hgoal : DAILY_GOAL ≤ v) :
    (loadData store today).1.goalReached = true ∧
    (goalEffect true (loadData store today).1).2 = false ∧
    ∀ evs, (runEvents (loadData store today).1 evs).2 = false := by
  rw [loadData_same_day_parsed store today s v hday hs hv]
  have hg : (AppState.mk v (decide (DAILY_GOAL ≤ v))).goalReached = true := by
    simp [hgoal]
  exact ⟨hg, by rw [goalEffect_latched _ hg], fun evs => (runEvents_latched _ evs hg).2⟩

/-- Witness for C4: same-day store holding `"2500"`; the behavior is
checked on the two-command sequence remove, add. -/
theorem c4_restart_no_recelebrate_witness :
    (Store.mk (some [88]) (some [50, 53, 48, 48])).lastReset = some [88] ∧
    (Store.mk (some [88]) (some [50, 53, 48, 48])).intakeMl
      = some [50, 53, 48, 48] ∧
    jsParseInt10 [50, 53, 48, 48] = some 2500 ∧
    DAILY_GOAL ≤ (2500 : Int) ∧
    ((loadData ⟨some [88], some [50, 53, 48, 48]⟩ [88]).1.goalReached = true ∧
     (goalEffect true (loadData ⟨some [88], some [50, 53, 48, 48]⟩ [88]).1).2 = false ∧
     (runEvents (loadData ⟨some [88], some [50, 53, 48, 48]⟩ [88]).1
        [Ev.remove, Ev.add]).2 = false) := by
  have h := c4_restart_no_recelebrate ⟨some [88], some [50, 53, 48, 48]⟩
    [88] [50, 53, 48, 48] 2500 rfl rfl (by decide) (by decide)
  exact ⟨rfl, rfl, by decide, by decide, h.1, h.2.1, h.2.2 [Ev.remove, Ev.add]⟩

/-- C5: Saturating add: for every `prev` in `[0, MAX_INTAKE]`, `addGlass`
yields `min (prev + GLASS_SIZE) MAX_INTAKE`, and when `prev` is already
`MAX_INTAKE` the whole state is unchanged. -/
theorem c5_saturating_add (prev : Int) (g : Bool)
    (h0 : 0 ≤ prev) (h1 : prev ≤ MAX_INTAKE) :
    (applyEv Ev.add ⟨prev, g⟩).intake = min (prev + GLASS_SIZE) MAX_INTAKE ∧
    (prev = MAX_INTAKE → applyEv Ev.add ⟨prev, g⟩ = ⟨prev, g⟩) := by
  refine ⟨rfl, fun hmax => ?_⟩
  subst hmax
  show (AppState.mk (min (MAX_INTAKE + GLASS_SIZE) MAX_INTAKE) g) = ⟨MAX_INTAKE, g⟩
  rw [show min (MAX_INTAKE + GLASS_SIZE) MAX_INTAKE = MAX_INTAKE by decide]

/-- Witness for C5 at `prev = MAX_INTAKE`, exercising the no-op case. -/
theorem c5_saturating_add_witness :
    (0 : Int) ≤ MAX_INTAKE ∧ (MAX_INTAKE : Int) ≤ MAX_INTAKE ∧
    ((applyEv Ev.add ⟨MAX_INTAKE, true⟩).intake
        = min (MAX_INTAKE + GLASS_SIZE) MAX_INTAKE ∧
     (MAX_INTAKE = MAX_INTAKE → applyEv Ev.add ⟨MAX_INTAKE, true⟩ = ⟨MAX_INTAKE, true⟩)) :=
  ⟨by decide, by decide, c5_saturating_add MAX_INTAKE true (by decide) (by decide)⟩

/-- C6: Saturating remove: for every `prev` in `[0, MAX_INTAKE]`,
`removeGlass` yields `max (prev - GLASS_SIZE) 0`, and when `prev = 0` the
whole state is unchanged (no error). -/
theorem c6_saturating_remove (prev : Int) (g : Bool)
    (h0 : 0 ≤ prev) (h1 : prev ≤ MAX_INTAKE) :
    (applyEv Ev.remove ⟨prev, g⟩).intake = max (prev - GLASS_SIZE) 0 ∧
    (prev = 0 → applyEv Ev.remove ⟨prev, g⟩ = ⟨prev, g⟩) := by
  refine ⟨rfl, fun hz => ?_⟩
  subst hz
  show (AppState.mk (max (0 - GLASS_SIZE) 0) g) = ⟨0, g⟩
  rw [show max ((0 : Int) - GLASS_SIZE) 0 = 0 by decide]

/-- Witness for C6 at `prev = 0`, exercising the no-op case. -/
theorem c6_saturating_remove_witness :
    (0 : Int) ≤ 0 ∧ (0 : Int) ≤ MAX_INTAKE ∧
    ((applyEv Ev.remove ⟨0, false⟩).intake = max ((0 : Int) - GLASS_SIZE) 0 ∧
     ((0 : Int) = 0 → applyEv Ev.remove ⟨0, false⟩ = ⟨0, false⟩)) :=
  ⟨by decide, by decide, c6_saturating_remove 0 false (by decide) (by decide)⟩

/-- C7 counterexample: on a same-day startup with stored
`intakeMl = "-5"` (code units `[45, 53]`) — a string that is not a valid
non-negative integer — the load restores `totalMl = -5`, not `0`:
`parseInt` only yields `NaN` (the fallback) for strings with no leading
digit after the optional sign. -/
theorem c7_counterexample :
    (loadData ⟨some [88], some [45, 53]⟩ [88]).1.intake = -5 ∧
    (loadData ⟨some [88], some [45, 53]⟩ [88]).1.intake ≠ 0 := by
  decide

/-- C7 (amended): on a same-day startup, if the stored `intakeMl` is
absent or `parseInt(·, 10)` yields `NaN` (a non-numeric string), the
restored `totalMl` is `0` and `goalReached` is `false`. -/
theorem c7_parse_fallback_amended (store : Store) (today : Str)
    (hday : store.lastReset = some today)
    (habs : store.intakeMl = none ∨
      ∃ s, store.intakeMl = some s ∧ jsParseInt10 s = none) :
    (loadData store today).1.intake = 0 ∧
    (loadData store today).1.goalReached = false := by
  rcases habs with h | ⟨s, hs, hv⟩
  · rw [loadData_same_day_absent store today hday h]
    exact ⟨rfl, rfl⟩
  · rw [loadData_same_day_nan store today s hday hs hv]
    exact ⟨rfl, rfl⟩

/-- Witness for C7 (amended): same-day store holding the non-numeric
string `"a"` (code unit `[97]`). -/
theorem c7_parse_fallback_amended_witness :
    (Store.mk (some [88]) (some [97])).lastReset = some [88] ∧
    ((Store.mk (some [88]) (some [97])).intakeMl = none ∨
      ∃ s, (Store.mk (some [88]) (some [97])).intakeMl = some s ∧
        jsParseInt10 s = none) ∧
    ((loadData ⟨some [88], some [97]⟩ [88]).1.intake = 0 ∧
     (loadData ⟨some [88], some [97]⟩ [88]).1.goalReached = false) :=
  ⟨rfl, Or.inr ⟨[97], rfl, by decide⟩,
   c7_parse_fallback_amended ⟨some [88], some [97]⟩ [88] rfl
     (Or.inr ⟨[97], rfl, by decide⟩)⟩

/-- C8: Persistence round trip: for every integer `totalMl` in
`[0, MAX_INTAKE]`, serialising with `toString` and parsing back with
`parseInt(·, 10)` restores the same value, and a same-day load of the
saved store restores exactly that `totalMl`. -/
theorem c8_round_trip (v : Int) (today : Str) (h0 : 0 ≤ v) (_h1 : v ≤ MAX_INTAKE) :
    jsParseInt10 (intToString v) = some v ∧
    (loadData ⟨some today, some (intToString v)⟩ today).1.intake = v := by
  have hp := jsParseInt10_intToString v h0
  refine ⟨hp, ?_⟩
  rw [loadData_same_day_parsed ⟨some today, some (intToString v)⟩ today
    (intToString v) v rfl rfl hp]

/-- Witness for C8 at `totalMl = 2500`. -/
theorem c8_round_trip_witness :
    (0 : Int) ≤ 2500 ∧ (2500 : Int) ≤ MAX_INTAKE ∧
    (jsParseInt10 (intToString 2500) = some 2500 ∧
     (loadData ⟨some [88], some (intToString 2500)⟩ [88]).1.intake = 2500) :=
  ⟨by decide, by decide, c8_round_trip 2500 [88] (by decide) (by decide)⟩

/-- C9: No premature persistence: while loading, the action surface is
absent so a command leaves the state unchanged; the save effect with
initialization incomplete leaves the store untouched; and an entire run
of commands before initialization completes writes nothing to the store,
so no default-derived `intakeMl` is ever persisted before the load
finishes. -/
theorem c9_no_premature_persistence (s : AppState) (store : Store)
    (evs : List Ev) (v : Int) (e : Ev) :
    dispatch true e s = s ∧
    saveEffect false v store = store ∧
    (preInitRun s store evs).2 = store :=
  ⟨rfl, rfl, preInitRun_store s store evs⟩

/-- C10: Remove undoes add below saturation: adding then removing a glass
returns exactly `x` when `x + GLASS_SIZE ≤ MAX_INTAKE`, and yields
`MAX_INTAKE - GLASS_SIZE` when `x` is in the saturation band
`(MAX_INTAKE - GLASS_SIZE, MAX_INTAKE]`. -/
theorem c10_remove_undoes_add (x : Int) (g : Bool) (h0 : 0 ≤ x) :
    (x + GLASS_SIZE ≤ MAX_INTAKE →
      (applyEv Ev.remove (applyEv Ev.add ⟨x, g⟩)).intake = x) ∧
    (MAX_INTAKE - GLASS_SIZE < x → x ≤ MAX_INTAKE →
      (applyEv Ev.remove (applyEv Ev.add ⟨x, g⟩)).intake
        = MAX_INTAKE - GLASS_SIZE) := by
  have hM : MAX_INTAKE = 3000 := by decide
  have hG : GLASS_SIZE = 250 := by decide
  constructor
  · intro h
    rw [hG, hM] at h
    show max (min (x + GLASS_SIZE) MAX_INTAKE - GLASS_SIZE) 0 = x
    rw [hG, hM, min_def, max_def]
    split_ifs <;> omega
  · intro hlo hhi
    rw [hG, hM] at hlo
    rw [hM] at hhi
    show max (min (x + GLASS_SIZE) MAX_INTAKE - GLASS_SIZE) 0
      = MAX_INTAKE - GLASS_SIZE
    rw [hG, hM, min_def, max_def]
    split_ifs <;> omega

/-- Witness for C10 at `x = 1000` (below saturation) — the second
conjunct's antecedent is vacuous there. -/
theorem c10_remove_undoes_add_witness :
    (0 : Int) ≤ 1000 ∧
    (((1000 : Int) + GLASS_SIZE ≤ MAX_INTAKE →
        (applyEv Ev.remove (applyEv Ev.add ⟨1000, false⟩)).intake = 1000) ∧
     (MAX_INTAKE - GLASS_SIZE < (1000 : Int) → (1000 : Int) ≤ MAX_INTAKE →
        (applyEv Ev.remove (applyEv Ev.add ⟨1000, false⟩)).intake
          = MAX_INTAKE - GLASS_SIZE)) :=
  ⟨by decide, c10_remove_undoes_add 1000 false (by decide)⟩

end WaterTracker
